import Mathlib

/-!
Verification development for the GoP DESI warm-core pipeline.

Shallow embedding of the core computational functions of
`gop_warm_core_desipipeline.py` and
`gop_curvature/bell_curve_decoherence_kernel.py`:

* `gamma_bell_curve` — the bell-curve decoherence kernel `Γ(E)`;
* `compute_E_local` — the density-to-energy mapper with its two modes;
* `rho_prob` / `rho_effective` — the probabilistic and effective densities;
* `inner_slope` — the log-log inner-slope estimator.

Conventions of the embedding: `float64` values are modelled as real numbers;
numpy arrays as `List ℝ`; elementwise numpy arithmetic as `List.map` /
`List.zipWith`; a Python function that can raise returns
`Except PyErr (List ℝ)`, with `PyErr` distinguishing the exception class
raised (`TypeError`, `ValueError`, `IndexError`).  `np.nan` as the
"undefined slope" sentinel of `inner_slope` is modelled by `Option ℝ`
(`none` = NaN sentinel; the Python function has no raise path).
-/

namespace GoP

/-- Embedding of Python `str.lower()` for the ASCII mode tags handled by
the pipeline: lowercase every character. -/
def pyLower (s : String) : String := ⟨s.data.map Char.toLower⟩

/-- Embedding of Python `str.strip()`: remove leading and trailing
whitespace. -/
def pyStrip (s : String) : String :=
  ⟨((s.data.dropWhile Char.isWhitespace).reverse.dropWhile
      Char.isWhitespace).reverse⟩

/-- The Python exception classes that the modelled code paths can raise:
`TypeError` (bad keyword argument in a call), `ValueError` (unrecognized
mode string, raised by `compute_E_local` line 116), `IndexError`
(`rho_b[0]` on an empty array, line 107). -/
inductive PyErr : Type
  | typeError : PyErr
  | valueError : PyErr
  | indexError : PyErr
deriving DecidableEq, Repr

/-- Modelled from the spec: the constants module
`gop_curvature/gop_constants.py` is not present under `src/`; the spec
(§3) only constrains `c_light` to be a positive real (speed of light,
cm/s in cgs).  Its concrete value is never relevant to any claim. -/
noncomputable def C_LIGHT : ℝ := 29979245800

/-- Modelled from the spec: global default characteristic energy `E0`
imported from the missing `gop_constants.py`; the spec (§3) requires
`E0 > 0` but fixes no value.  It is only the *default* of the kernel
argument `E0_local` and every modelled call site supplies `E0_local`
explicitly, so its value is never relevant to any claim. -/
noncomputable def E0_DEFAULT : ℝ := 1

/-- The `GoPParams` dataclass of `gop_warm_core_desipipeline.py` (lines 55-60):
the four fixed scalar parameters. -/
structure GoPParams : Type where
  kappaA : ℝ
  E0_erg : ℝ
  f_ent : ℝ
  a_cp : ℝ

/-- Scalar form of the kernel body (`bell_curve_decoherence_kernel.py`
lines 52-55): `x = E / E0_local`; `gamma = A * x * exp(-x)`. -/
noncomputable def gamma_bell_curve_scalar (E A E0_local : ℝ) : ℝ :=
  A * (E / E0_local) * Real.exp (-(E / E0_local))

/-- Kernel `gamma_bell_curve(E, A=1.0, E0_local=E0)` applied to an array input:
elementwise `A * (E/E0_local) * exp(-(E/E0_local))`.  The Python body
performs no validation and has no raise path. -/
noncomputable def gamma_bell_curve (E : List ℝ) (A : ℝ := 1)
    (E0_local : ℝ := E0_DEFAULT) : List ℝ :=
  E.map (fun e => gamma_bell_curve_scalar e A E0_local)

/-- Python keyword binding for a call `gamma_bell_curve(E, **kwargs)`:
the function signature (`bell_curve_decoherence_kernel.py` lines 24-28)
declares parameters `E`, `A` (default `1.0`) and `E0_local` (default the
global `E0`); a keyword that is neither `A` nor `E0_local` fails to bind
and the call raises `TypeError` before the function body runs. -/
noncomputable def gamma_bell_curve_call (E : List ℝ)
    (kwargs : List (String × ℝ)) : Except PyErr (List ℝ) :=
  if kwargs.all (fun kv => kv.1 == "A" || kv.1 == "E0_local") then
    let A := (((kwargs.find? (fun kv => kv.1 == "A")).map Prod.snd).getD 1)
    let E0l :=
      (((kwargs.find? (fun kv => kv.1 == "E0_local")).map Prod.snd).getD
        E0_DEFAULT)
    .ok (gamma_bell_curve E A E0l)
  else
    .error .typeError

/-- Net reference density selected by the normalized branch of
`compute_E_local` (lines 106-108): when `rho_ref` is `None` it becomes
`rho_b[0]` if that is nonzero, else `1.0` (line 107); the re-check of
line 108 (`rho_ref if rho_ref != 0 else 1.0`) is then a no-op since the
value is already nonzero, and for a caller-supplied `rho_ref` it maps a
zero value to `1.0` and keeps any nonzero value. -/
noncomputable def normalizedRef (rho_b : List ℝ) (rho_ref : Option ℝ) : ℝ :=
  match rho_ref, rho_b with
  | some r, _ => if r ≠ 0 then r else 1
  | none, [] => 1
  | none, r0 :: _ => if r0 ≠ 0 then r0 else 1

/-- Energy mapper `compute_E_local(rho_b, params, mode, rho_ref, Lcoh_cm)`
(lines 73-116): lowercases and strips the mode tag; in `"normalized"`
mode returns `E0_erg * (rho_b / ref)` elementwise (accessing `rho_b[0]`
— hence `IndexError` on an empty array — only when no reference is
supplied); in `"physical"` mode returns
`rho_b * C_LIGHT**2 * Lcoh_cm**3` elementwise; any other tag raises
`ValueError` (line 116). -/
noncomputable def compute_E_local (rho_b : List ℝ) (params : GoPParams)
    (mode : String) (rho_ref : Option ℝ) (Lcoh_cm : ℝ) :
    Except PyErr (List ℝ) :=
  let m := pyStrip (pyLower mode)
  if m = "normalized" then
    match rho_ref, rho_b with
    | none, [] => .error .indexError
    | _, _ =>
        .ok (rho_b.map
          (fun x => params.E0_erg * (x / normalizedRef rho_b rho_ref)))
  else if m = "physical" then
    .ok (rho_b.map (fun x => x * C_LIGHT ^ 2 * Lcoh_cm ^ 3))
  else
    .error .valueError

/-- Probabilistic density `rho_prob(r_kpc, rho_b, params, *, mode, rho_ref, Lcoh_cm, debug)`
(lines 122-160): computes `E_local` via `compute_E_local`, then calls
`gamma_bell_curve(E_local, kappaA=params.kappaA, E0_local=params.E0_erg)`
(line 140) — a call whose keyword `kappaA` is modelled through the
binding semantics of `gamma_bell_curve_call` — and on success returns
`Gamma * f_ent * (1 + a_cp)` elementwise (line 142).  The `debug` block
(lines 144-158) only prints and runs after the value `rho_p` is
computed, so it never affects the returned value.  `r_kpc` is never read
by the function body. -/
noncomputable def rho_prob (r_kpc rho_b : List ℝ) (params : GoPParams)
    (mode : String) (rho_ref : Option ℝ) (Lcoh_cm : ℝ) (debug : Bool) :
    Except PyErr (List ℝ) :=
  match compute_E_local rho_b params mode rho_ref Lcoh_cm with
  | .error e => .error e
  | .ok E_local =>
    match gamma_bell_curve_call E_local
        [("kappaA", params.kappaA), ("E0_local", params.E0_erg)] with
    | .error e => .error e
    | .ok Gamma =>
        .ok (Gamma.map (fun g => g * params.f_ent * (1 + params.a_cp)))

/-- Effective density `rho_effective(r_kpc, rho_b, params, *, ...)` (lines 166-184):
`rho_b + rho_prob(...)` elementwise. -/
noncomputable def rho_effective (r_kpc rho_b : List ℝ) (params : GoPParams)
    (mode : String) (rho_ref : Option ℝ) (Lcoh_cm : ℝ) (debug : Bool) :
    Except PyErr (List ℝ) :=
  match rho_prob r_kpc rho_b params mode rho_ref Lcoh_cm debug with
  | .error e => .error e
  | .ok rp => .ok (List.zipWith (fun b p => b + p) rho_b rp)

/-- Arithmetic mean of a list (the `x.mean()` entering the normal
equations of a degree-1 least-squares fit). -/
noncomputable def listMean (xs : List ℝ) : ℝ := xs.sum / xs.length

/-- Slope coefficient of `np.polyfit(x, y, 1)` (line 197), embedded by
its closed-form ordinary-least-squares solution
`Σ (xᵢ-x̄)(yᵢ-ȳ) / Σ (xᵢ-x̄)²` — the unique least-squares solution
whenever the xᵢ are not all equal.  (When they are all equal the design
matrix is rank-deficient; numpy then returns the minimal-norm solution,
whose slope component is `0`, matching the `0 / 0 = 0` convention of
real division used here.) -/
noncomputable def polyfit_slope (x y : List ℝ) : ℝ :=
  let xbar := listMean x
  let ybar := listMean y
  ((x.zip y).map (fun p => (p.1 - xbar) * (p.2 - ybar))).sum /
    (x.map (fun t => (t - xbar) ^ 2)).sum

/-- Qualifying-sample predicate of `inner_slope` (line 192):
`(r_kpc > 0) & (r_kpc <= r_max) & (rho > 0)`. -/
noncomputable def slopeMask (r_max : ℝ) (p : ℝ × ℝ) : Bool :=
  decide (0 < p.1 ∧ p.1 ≤ r_max ∧ 0 < p.2)

/-- Slope estimator `inner_slope(r_kpc, rho, r_max)` (lines 187-198): keeps the samples
with `0 < r ≤ r_max` and `ρ > 0`; with fewer than 3 such samples returns
the NaN sentinel (`none`); otherwise returns the slope of the
least-squares fit of `ln ρ` against `ln r` over those samples.  The
Python body has no raise path. -/
noncomputable def inner_slope (r_kpc rho : List ℝ) (r_max : ℝ) :
    Option ℝ :=
  let pts := (r_kpc.zip rho).filter (slopeMask r_max)
  if pts.length < 3 then none
  else
    some (polyfit_slope (pts.map (fun p => Real.log p.1))
      (pts.map (fun p => Real.log p.2)))

/-! ### Evaluation lemmas for the mapper, the kernel call and the density
model (shared helpers). -/

lemma compute_E_local_bad_mode (mode : String)
    (h1 : pyStrip (pyLower mode) ≠ "normalized")
    (h2 : pyStrip (pyLower mode) ≠ "physical")
    (rho_b : List ℝ) (params : GoPParams) (rho_ref : Option ℝ) (L : ℝ) :
    compute_E_local rho_b params mode rho_ref L = .error .valueError := by
  unfold compute_E_local
  simp only [if_neg h1, if_neg h2]

lemma compute_E_local_physical (rho_b : List ℝ) (params : GoPParams)
    (rho_ref : Option ℝ) (L : ℝ) :
    compute_E_local rho_b params "physical" rho_ref L =
      .ok (rho_b.map (fun x => x * C_LIGHT ^ 2 * L ^ 3)) := by
  unfold compute_E_local
  rw [if_neg (by decide : ¬ pyStrip (pyLower "physical") = "normalized"),
    if_pos (by decide : pyStrip (pyLower "physical") = "physical")]

lemma compute_E_local_normalized (rho_b : List ℝ) (params : GoPParams)
    (rho_ref : Option ℝ) (L : ℝ) (h : rho_ref ≠ none ∨ rho_b ≠ []) :
    compute_E_local rho_b params "normalized" rho_ref L =
      .ok (rho_b.map
        (fun x => params.E0_erg * (x / normalizedRef rho_b rho_ref))) := by
  unfold compute_E_local
  rw [if_pos (by decide : pyStrip (pyLower "normalized") = "normalized")]
  match rho_ref, rho_b with
  | some r, l => rfl
  | none, [] => simp at h
  | none, r0 :: rest => rfl

lemma compute_E_local_none_nil (params : GoPParams) (L : ℝ) :
    compute_E_local [] params "normalized" none L = .error .indexError := by
  unfold compute_E_local
  rw [if_pos (by decide : pyStrip (pyLower "normalized") = "normalized")]

/-- The call of line 140: keyword `kappaA` matches no parameter of
`gamma_bell_curve` (they are `E`, `A`, `E0_local`), so binding fails with
`TypeError` whatever the argument values are. -/
lemma gamma_call_kappaA (E : List ℝ) (k e : ℝ) :
    gamma_bell_curve_call E [("kappaA", k), ("E0_local", e)] =
      .error .typeError := by
  unfold gamma_bell_curve_call
  simp only [List.all_cons, List.all_nil]
  rw [if_neg (by decide)]

/-- Net result of `rho_prob`: the energy mapper's error if it raises,
otherwise the `TypeError` of the failing kernel call. -/
lemma rho_prob_result (r rho_b : List ℝ) (params : GoPParams)
    (mode : String) (rho_ref : Option ℝ) (L : ℝ) (dbg : Bool) :
    rho_prob r rho_b params mode rho_ref L dbg =
      match compute_E_local rho_b params mode rho_ref L with
      | .error e => .error e
      | .ok _ => .error .typeError := by
  unfold rho_prob
  cases hc : compute_E_local rho_b params mode rho_ref L with
  | error e => rfl
  | ok v => simp only [gamma_call_kappaA]

/-- Net result of `rho_effective`: it propagates exactly the error of
`rho_prob`, which is never `.ok`. -/
lemma rho_effective_result (r rho_b : List ℝ) (params : GoPParams)
    (mode : String) (rho_ref : Option ℝ) (L : ℝ) (dbg : Bool) :
    rho_effective r rho_b params mode rho_ref L dbg =
      match compute_E_local rho_b params mode rho_ref L with
      | .error e => .error e
      | .ok _ => .error .typeError := by
  unfold rho_effective
  rw [rho_prob_result]
  cases compute_E_local rho_b params mode rho_ref L with
  | error e => rfl
  | ok v => rfl

/-! ### Ordinary-least-squares facts for the slope estimator -/

lemma sum_map_affine (x : List ℝ) (a m : ℝ) :
    (x.map (fun t => a + m * t)).sum = x.length * a + m * x.sum := by
  induction x with
  | nil => simp
  | cons h t ih =>
      simp only [List.map_cons, List.sum_cons, ih, List.length_cons]
      push_cast
      ring

lemma listMean_affine (x : List ℝ) (a m : ℝ) (hx : x ≠ []) :
    listMean (x.map (fun t => a + m * t)) = a + m * listMean x := by
  have hn : (x.length : ℝ) ≠ 0 := by
    simpa using (List.length_pos.mpr hx).ne'
  unfold listMean
  rw [List.length_map, sum_map_affine]
  field_simp
  ring

lemma zip_self_map (x : List ℝ) (g : ℝ → ℝ) :
    x.zip (x.map g) = x.map (fun t => (t, g t)) := by
  induction x with
  | nil => rfl
  | cons h t ih => simp [ih]

lemma sum_pos_of_mem (l : List ℝ) (hnn : ∀ a ∈ l, 0 ≤ a) (b : ℝ)
    (hb : b ∈ l) (hbpos : 0 < b) : 0 < l.sum := by
  induction l with
  | nil => simp at hb
  | cons h t ih =>
      rw [List.sum_cons]
      rcases List.mem_cons.mp hb with rfl | hb'
      · have ht : 0 ≤ t.sum :=
          List.sum_nonneg (fun a ha => hnn a (List.mem_cons_of_mem _ ha))
        linarith
      · have ht : 0 < t.sum :=
          ih (fun a ha => hnn a (List.mem_cons_of_mem _ ha)) hb'
        have hh : 0 ≤ h := hnn h (List.mem_cons_self h t)
        linarith

/-- The degree-1 least-squares slope recovers the coefficient of exactly
affine data, provided the regressor values are not all equal (nonzero
centred sum of squares). -/
lemma slope_affine (x : List ℝ) (a m : ℝ)
    (hden : (x.map (fun t => (t - listMean x) ^ 2)).sum ≠ 0) :
    polyfit_slope x (x.map (fun t => a + m * t)) = m := by
  have hx : x ≠ [] := by
    rintro rfl
    simp at hden
  unfold polyfit_slope
  rw [zip_self_map, listMean_affine x a m hx]
  simp only [List.map_map]
  have hfun : ((fun p : ℝ × ℝ => (p.1 - listMean x) *
        (p.2 - (a + m * listMean x))) ∘ (fun t => (t, a + m * t))) =
      fun t => m * (t - listMean x) ^ 2 := by
    funext t
    simp only [Function.comp]
    ring
  rw [hfun, List.sum_map_mul_left, mul_div_assoc, div_self hden, mul_one]

/-! ### Claim theorems -/

/-- Claim C1 (code bug, evaluation at the failing input): with radius `[1]`,
density `[1]`, parameters `kappaA = 1, E0 = 1, f_ent = 1, a_cp = 0` and
`"normalized"` mode, `rho_prob` raises `TypeError` instead of returning
`Γ · f_ent · (1 + a_cp)`: line 140 passes the keyword `kappaA` to
`gamma_bell_curve`, whose amplitude parameter is named `A`. -/
theorem C1_rho_prob_raises_TypeError :
    rho_prob [1] [1] ⟨1, 1, 1, 0⟩ "normalized" none 1 false =
      .error .typeError := by
  rw [rho_prob_result,
    compute_E_local_normalized [1] ⟨1, 1, 1, 0⟩ none 1 (Or.inr (by simp))]

/-- Claim C7 (code bug, evaluation at the failing input): with an
all-positive density `[1]`, `"normalized"` mode and nonnegative
`kappaA, f_ent, 1 + a_cp`, `rho_effective` raises `TypeError` (propagated
from the failing kernel call inside `rho_prob`) instead of returning
`density + probabilistic_density`. -/
theorem C7_rho_effective_raises_TypeError :
    rho_effective [1] [1] ⟨1, 1, 1, 0⟩ "normalized" none 1 false =
      .error .typeError := by
  rw [rho_effective_result,
    compute_E_local_normalized [1] ⟨1, 1, 1, 0⟩ none 1 (Or.inr (by simp))]

/-- Claim C2 counterexample: the claim quantifies over every mode string,
but with the unrecognized mode `"bogus"` `rho_prob` raises `ValueError`
(the invalid-mode rejection of `compute_E_local`), not `TypeError`. -/
theorem C2_counterexample :
    rho_prob [1] [1] ⟨1, 1, 1, 0⟩ "bogus" none 1 false =
      .error .valueError ∧ PyErr.valueError ≠ PyErr.typeError := by
  constructor
  · rw [rho_prob_result,
      compute_E_local_bad_mode "bogus" (by decide) (by decide)]
  · simp

/-- Claim C2 (amended): whenever the energy mapping succeeds — i.e. the
mode tag normalizes to one of the two accepted tags and, in normalized
mode with no reference supplied, the density array is nonempty —
`rho_prob` raises `TypeError` before any kernel value is computed,
because it invokes `gamma_bell_curve` with the keyword argument `kappaA`,
which is not a parameter of `gamma_bell_curve` (its amplitude parameter
is named `A`); `rho_effective` propagates the same `TypeError`; and for
every input whatsoever neither function ever returns a density array. -/
theorem C2_no_array_ever_returned (r rho_b : List ℝ) (params : GoPParams)
    (mode : String) (rho_ref : Option ℝ) (L : ℝ) (dbg : Bool) :
    ((∃ v, compute_E_local rho_b params mode rho_ref L = .ok v) →
        rho_prob r rho_b params mode rho_ref L dbg = .error .typeError ∧
        rho_effective r rho_b params mode rho_ref L dbg =
          .error .typeError) ∧
    (∀ v, rho_prob r rho_b params mode rho_ref L dbg ≠ .ok v) ∧
    (∀ v, rho_effective r rho_b params mode rho_ref L dbg ≠ .ok v) := by
  refine ⟨fun ⟨v, hv⟩ => ?_, fun v => ?_, fun v => ?_⟩
  · rw [rho_prob_result, rho_effective_result, hv]
    exact ⟨rfl, rfl⟩
  · rw [rho_prob_result]
    cases compute_E_local rho_b params mode rho_ref L <;> simp
  · rw [rho_effective_result]
    cases compute_E_local rho_b params mode rho_ref L <;> simp

/-- Claim C2 witness: concrete instance of the amended claim in
`"physical"` mode. -/
theorem C2_witness :
    rho_prob [2] [3] ⟨1, 1, 1, 0⟩ "physical" none 1 false =
      .error .typeError ∧
    rho_effective [2] [3] ⟨1, 1, 1, 0⟩ "physical" none 1 false =
      .error .typeError :=
  (C2_no_array_ever_returned [2] [3] ⟨1, 1, 1, 0⟩ "physical" none 1
    false).1 ⟨_, compute_E_local_physical [3] ⟨1, 1, 1, 0⟩ none 1⟩

/-- Claim C4: for every mode string whose lowercased,
whitespace-stripped value is neither of the two accepted tags,
`compute_E_local` raises the invalid-mode error (`ValueError`, the
spec's `InvalidModeError`) uniformly in the density input and the other
arguments — no array work is performed and no partial result is ever
produced. -/
theorem C4_invalid_mode_rejected (mode : String)
    (h1 : pyStrip (pyLower mode) ≠ "normalized")
    (h2 : pyStrip (pyLower mode) ≠ "physical") :
    ∀ (rho_b : List ℝ) (params : GoPParams) (rho_ref : Option ℝ) (L : ℝ),
      compute_E_local rho_b params mode rho_ref L = .error .valueError :=
  fun rho_b params rho_ref L =>
    compute_E_local_bad_mode mode h1 h2 rho_b params rho_ref L

/-- Claim C4 witness: the tag `" Bogus\t"` is rejected (its lowercased,
stripped form is `"bogus"`). -/
theorem C4_witness :
    compute_E_local [1] ⟨1, 1, 1, 0⟩ " Bogus\t" none 1 =
      .error .valueError :=
  C4_invalid_mode_rejected " Bogus\t" (by decide) (by decide)
    [1] ⟨1, 1, 1, 0⟩ none 1

/-- Claim C5 counterexample: no `DomainError` is raised.  With `E0 = 0`
the normalized mapper returns the array `[0]` (it does not raise), and
with the non-positive coherence length `-1` the physical mapper returns
the scaled array (it does not raise either). -/
theorem C5_counterexample :
    compute_E_local [2] ⟨0, 0, 0, 0⟩ "normalized" none 1 = .ok [0] ∧
    compute_E_local [2] ⟨0, 0, 0, 0⟩ "physical" none (-1) =
      .ok [2 * C_LIGHT ^ 2 * (-1) ^ 3] := by
  constructor
  · rw [compute_E_local_normalized [2] ⟨0, 0, 0, 0⟩ none 1
      (Or.inr (by simp))]
    norm_num
  · rw [compute_E_local_physical]
    norm_num

/-- Claim C5 (amended): the code contains no validation of `E0` or of
the coherence length, and the spec itself (§9) records that no guard is
present.  With a nonempty density array, `E0 = 0` and a non-positive
coherence length, `compute_E_local` returns an array in both modes
rather than raising: the zero array in normalized mode (every element is
`E0 · ratio = 0`) and the `rho · c² · L³` array in physical mode; the
kernel likewise has no raise path (`gamma_bell_curve` is a total
function of its inputs; in numpy, `E0_local = 0` propagates NaN/Inf
values instead of raising). -/
theorem C5_no_domain_error (rho_b : List ℝ) (params : GoPParams)
    (rr : Option ℝ) (L : ℝ) (h0 : rho_b ≠ [])
    (hE0 : params.E0_erg = 0) (hL : L ≤ 0) :
    compute_E_local rho_b params "normalized" rr L =
      .ok (rho_b.map fun _ => 0) ∧
    compute_E_local rho_b params "physical" rr L =
      .ok (rho_b.map fun x => x * C_LIGHT ^ 2 * L ^ 3) := by
  refine ⟨?_, compute_E_local_physical rho_b params rr L⟩
  rw [compute_E_local_normalized rho_b params rr L (Or.inr h0), hE0]
  simp

/-- Claim C5 witness: concrete instance of the amended claim with
density `[2]`, `E0 = 0` and coherence length `-1`. -/
theorem C5_witness :
    compute_E_local [2] ⟨3, 0, 4, 5⟩ "normalized" none (-1) =
      .ok ([2].map fun _ => (0 : ℝ)) ∧
    compute_E_local [2] ⟨3, 0, 4, 5⟩ "physical" none (-1) =
      .ok ([2].map fun x => x * C_LIGHT ^ 2 * (-1) ^ 3) :=
  C5_no_domain_error [2] ⟨3, 0, 4, 5⟩ none (-1) (by simp) rfl
    (by norm_num)

/-- Claim C10: `rho_prob` and `rho_effective` do not depend on the
radius array: two invocations differing only in the radius argument
yield identical results (the function bodies never read `r_kpc`). -/
theorem C10_radius_independence :
    ∀ (r1 r2 rho_b : List ℝ) (params : GoPParams) (mode : String)
      (rho_ref : Option ℝ) (L : ℝ) (dbg : Bool),
      rho_prob r1 rho_b params mode rho_ref L dbg =
        rho_prob r2 rho_b params mode rho_ref L dbg ∧
      rho_effective r1 rho_b params mode rho_ref L dbg =
        rho_effective r2 rho_b params mode rho_ref L dbg :=
  fun _ _ _ _ _ _ _ _ => ⟨rfl, rfl⟩

/-- Claim C6 counterexample: with density `[2]`, a caller-supplied
reference of `0` and `E0 = 1`, the claim's fallback chain ("supplied
reference if present and nonzero, else density[0] if nonzero") selects
`density[0] = 2` and predicts the output `E0 · (2/2) = 1`; the code maps
a supplied zero reference directly to `1.0` (line 108, never consulting
`density[0]`) and returns `[2]`. -/
theorem C6_counterexample :
    compute_E_local [2] ⟨0, 1, 0, 0⟩ "normalized" (some 0) 1 = .ok [2] ∧
    (2 : ℝ) ≠ 1 := by
  constructor
  · rw [compute_E_local_normalized [2] ⟨0, 1, 0, 0⟩ (some 0) 1
      (Or.inl (by simp))]
    norm_num [normalizedRef]
  · norm_num

/-- Claim C6 (amended): in normalized mode the selected reference is the
caller-supplied reference if present and nonzero, `1.0` if present and
zero (the `density[0]` fallback applies only when no reference is
supplied), else `density[0]` if that is nonzero, else `1.0`; the result
is `E0 · (density / reference)` elementwise, the selected reference is
never zero, and every element whose density equals the selected
reference maps to exactly `E0`. -/
theorem C6_reference_selection (rho_b : List ℝ) (params : GoPParams)
    (rr : Option ℝ) (L : ℝ) (h0 : rho_b ≠ []) :
    compute_E_local rho_b params "normalized" rr L =
      .ok (rho_b.map
        (fun x => params.E0_erg * (x / normalizedRef rho_b rr))) ∧
    normalizedRef rho_b rr ≠ 0 ∧
    (∀ r, rr = some r → r ≠ 0 → normalizedRef rho_b rr = r) ∧
    (∀ r, rr = some r → r = 0 → normalizedRef rho_b rr = 1) ∧
    (rr = none → rho_b.headI ≠ 0 → normalizedRef rho_b rr = rho_b.headI) ∧
    (rr = none → rho_b.headI = 0 → normalizedRef rho_b rr = 1) ∧
    (∀ x ∈ rho_b, x = normalizedRef rho_b rr →
      params.E0_erg * (x / normalizedRef rho_b rr) = params.E0_erg) := by
  have href : normalizedRef rho_b rr ≠ 0 := by
    match rr, rho_b with
    | some r, l =>
        simp only [normalizedRef]
        split <;> simp_all
    | none, [] => simp [normalizedRef]
    | none, r0 :: rest =>
        simp only [normalizedRef]
        split <;> simp_all
  refine ⟨compute_E_local_normalized rho_b params rr L (Or.inr h0), href,
    ?_, ?_, ?_, ?_, ?_⟩
  · intro r hrr hr
    subst hrr
    simp [normalizedRef, hr]
  · intro r hrr hr
    subst hrr
    simp [normalizedRef, hr]
  · intro hrr hne
    subst hrr
    match rho_b, h0 with
    | r0 :: rest, _ =>
        simp only [List.headI] at hne ⊢
        simp [normalizedRef, hne]
  · intro hrr hz
    subst hrr
    match rho_b, h0 with
    | r0 :: rest, _ =>
        simp only [List.headI] at hz ⊢
        simp [normalizedRef, hz]
  · intro x _hx hxe
    rw [hxe, div_self href, mul_one]

/-- Claim C6 witness: concrete instance with density `[2, 3]`, supplied
nonzero reference `5` and `E0 = 7`. -/
theorem C6_witness :
    compute_E_local [2, 3] ⟨0, 7, 0, 0⟩ "normalized" (some 5) 1 =
      .ok ([2, 3].map
        (fun x => (7 : ℝ) * (x / normalizedRef [2, 3] (some 5)))) ∧
    normalizedRef [2, 3] (some 5) ≠ 0 ∧
    (∀ r, (some 5 : Option ℝ) = some r → r ≠ 0 →
      normalizedRef [2, 3] (some 5) = r) ∧
    (∀ r, (some 5 : Option ℝ) = some r → r = 0 →
      normalizedRef [2, 3] (some 5) = 1) ∧
    ((some 5 : Option ℝ) = none → List.headI ([2, 3] : List ℝ) ≠ 0 →
      normalizedRef [2, 3] (some 5) = List.headI ([2, 3] : List ℝ)) ∧
    ((some 5 : Option ℝ) = none → List.headI ([2, 3] : List ℝ) = 0 →
      normalizedRef [2, 3] (some 5) = 1) ∧
    (∀ x ∈ ([2, 3] : List ℝ), x = normalizedRef [2, 3] (some 5) →
      (7 : ℝ) * (x / normalizedRef [2, 3] (some 5)) = 7) :=
  C6_reference_selection [2, 3] ⟨0, 7, 0, 0⟩ (some 5) 1 (by simp)

/-- Claim C3 counterexample: the claimed formula
`Γ = kappaA · E · exp(1 − E/E0)` disagrees with the code at
`E = E0 = 2`, `kappaA = 1`: the code computes
`A · (E/E0) · exp(−E/E0) = exp(−1)`, while the claimed formula gives
`2 · exp(0) = 2`. -/
theorem C3_counterexample :
    gamma_bell_curve_scalar 2 1 2 ≠ 1 * 2 * Real.exp (1 - 2 / 2) := by
  unfold gamma_bell_curve_scalar
  norm_num [Real.exp_zero]
  have h := Real.exp_lt_one_iff.mpr (by norm_num : (-1 : ℝ) < 0)
  intro hc
  rw [hc] at h
  linarith

/-- Claim C3 (amended): the kernel computes
`Γ = A · (E/E0) · exp(−E/E0)` (the amplitude parameter is named `A`, not
`kappaA`, and there is no factor `e^1`); consequently for `E0 > 0` the
peak value is `gamma(E0, A, E0) = A · e⁻¹` (not `A · E0`),
`gamma(0, A, E0) = 0`, and `gamma(E, A, E0) → 0` as `E → +∞`. -/
theorem C3_kernel_form (A E0 : ℝ) (h : 0 < E0) :
    gamma_bell_curve_scalar E0 A E0 = A * Real.exp (-1) ∧
    gamma_bell_curve_scalar 0 A E0 = 0 ∧
    Filter.Tendsto (fun E => gamma_bell_curve_scalar E A E0)
      Filter.atTop (nhds 0) := by
  have hne : E0 ≠ 0 := ne_of_gt h
  refine ⟨?_, ?_, ?_⟩
  · unfold gamma_bell_curve_scalar
    rw [div_self hne]
    norm_num
  · unfold gamma_bell_curve_scalar
    simp
  · have h1 : Filter.Tendsto (fun y : ℝ => A * (y * Real.exp (-y)))
        Filter.atTop (nhds (A * 0)) := by
      apply Filter.Tendsto.const_mul
      simpa using Real.tendsto_pow_mul_exp_neg_atTop_nhds_zero 1
    rw [mul_zero] at h1
    have h2 : Filter.Tendsto (fun E : ℝ => E / E0) Filter.atTop
        Filter.atTop := Filter.tendsto_id.atTop_div_const h
    have h3 := h1.comp h2
    refine h3.congr (fun E => ?_)
    unfold gamma_bell_curve_scalar
    simp only [Function.comp]
    ring

/-- Claim C9: whenever fewer than 3 samples satisfy
`0 < radius ≤ r_max` and `density > 0`, `inner_slope` returns the
"undefined" sentinel (`none`, embedding `np.nan`); the function body has
no raise path, so in particular no `InsufficientSampleError` exists. -/
theorem C9_sparse_window_undefined (r_kpc rho : List ℝ) (r_max : ℝ)
    (h : ((r_kpc.zip rho).filter (slopeMask r_max)).length < 3) :
    inner_slope r_kpc rho r_max = none := by
  unfold inner_slope
  rw [if_pos h]

/-- Claim C9 witness: only 2 samples, of which a single one qualifies
(`radius = 2` exceeds `r_max = 1`): the sentinel is returned. -/
theorem C9_witness : inner_slope [1, 2] [5, 5] 1 = none := by
  apply C9_sparse_window_undefined
  have h1 : slopeMask 1 ((1 : ℝ), (5 : ℝ)) = true := by
    simp only [slopeMask, decide_eq_true_eq]
    norm_num
  have h2 : slopeMask 1 ((2 : ℝ), (5 : ℝ)) = true → False := by
    simp only [slopeMask, decide_eq_true_eq]
    norm_num
  simp [List.filter_cons, h1, List.zip]
  rw [if_neg h2]
  norm_num

/-- Claim C3 witness: the amended claim at `A = 1`, `E0 = 1`. -/
theorem C3_witness :
    gamma_bell_curve_scalar 1 1 1 = 1 * Real.exp (-1) ∧
    gamma_bell_curve_scalar 0 1 1 = 0 ∧
    Filter.Tendsto (fun E => gamma_bell_curve_scalar E 1 1)
      Filter.atTop (nhds 0) :=
  C3_kernel_form 1 1 one_pos

/-- Claim C8 counterexample: the claim as stated quantifies over every
radius/density pair forming an exact power law on the qualifying window
with at least 3 qualifying samples, but radius `[1, 1, 1]`, density
`[5, 5, 5]` satisfies those hypotheses simultaneously for
`C = 5, m = 1` and for `C = 5, m = 0` (since `5 = 5·1^m` for every `m`),
so no single return value can equal "the" exponent: the fit is
degenerate when all qualifying radii coincide. -/
theorem C8_counterexample :
    ¬ (∀ (radius density : List ℝ) (r_max C m : ℝ), 0 < C →
        (∀ p ∈ (radius.zip density).filter (slopeMask r_max),
          p.2 = C * p.1 ^ m) →
        3 ≤ ((radius.zip density).filter (slopeMask r_max)).length →
        inner_slope radius density r_max = some m) := by
  intro hcl
  have hmem : ∀ p ∈ (([1, 1, 1] : List ℝ).zip
      ([5, 5, 5] : List ℝ)).filter (slopeMask 1), p = ((1 : ℝ), (5 : ℝ)) := by
    intro p hp
    have hp' := (List.mem_filter.mp hp).1
    simp only [List.zip, List.zipWith, List.mem_cons,
      List.not_mem_nil, or_false] at hp'
    rcases hp' with rfl | rfl | rfl <;> rfl
  have hlen : 3 ≤ ((([1, 1, 1] : List ℝ).zip
      ([5, 5, 5] : List ℝ)).filter (slopeMask 1)).length := by
    have hq : slopeMask (1 : ℝ) ((1 : ℝ), (5 : ℝ)) = true := by
      simp only [slopeMask, decide_eq_true_eq]
      norm_num
    simp [List.zip, List.filter_cons, hq]
  have h1 := hcl [1, 1, 1] [5, 5, 5] 1 5 1 (by norm_num)
    (fun p hp => by rw [hmem p hp]; norm_num) hlen
  have h0 := hcl [1, 1, 1] [5, 5, 5] 1 5 0 (by norm_num)
    (fun p hp => by rw [hmem p hp]; norm_num) hlen
  rw [h1] at h0
  simp at h0

/-- Claim C8 (amended): for every radius and density array forming an
exact power law `density = C · radius^m` (`C > 0`) on the qualifying
window (`0 < radius ≤ r_max`, `density > 0`), with at least 3 qualifying
samples *of which at least two have distinct radii*, `inner_slope`
returns exactly `m` (real-number arithmetic; the floating-point
implementation agrees to floating precision). -/
theorem C8_power_law_slope (radius density : List ℝ) (r_max C m : ℝ)
    (hC : 0 < C)
    (hpow : ∀ p ∈ (radius.zip density).filter (slopeMask r_max),
      p.2 = C * p.1 ^ m)
    (hlen : 3 ≤ ((radius.zip density).filter (slopeMask r_max)).length)
    (hdist : ∃ p ∈ (radius.zip density).filter (slopeMask r_max),
      ∃ q ∈ (radius.zip density).filter (slopeMask r_max), p.1 ≠ q.1) :
    inner_slope radius density r_max = some m := by
  unfold inner_slope
  set pts := (radius.zip density).filter (slopeMask r_max) with hpts
  rw [if_neg (by omega : ¬ pts.length < 3)]
  congr 1
  have hmask : ∀ p ∈ pts, 0 < p.1 ∧ p.1 ≤ r_max ∧ 0 < p.2 := by
    intro p hp
    have := (List.mem_filter.mp hp).2
    simpa [slopeMask, decide_eq_true_eq] using this
  have hy : pts.map (fun p => Real.log p.2) =
      (pts.map (fun p => Real.log p.1)).map
        (fun t => Real.log C + m * t) := by
    rw [List.map_map]
    refine List.map_congr_left (fun p hp => ?_)
    have hr := (hmask p hp).1
    rw [hpow p hp, Real.log_mul (ne_of_gt hC)
      (ne_of_gt (Real.rpow_pos_of_pos hr m)), Real.log_rpow hr]
    rfl
  rw [hy]
  apply slope_affine
  obtain ⟨p, hp, q, hq, hpq⟩ := hdist
  set x := pts.map (fun p => Real.log p.1) with hxdef
  have hu : Real.log p.1 ∈ x := List.mem_map_of_mem _ hp
  have hv : Real.log q.1 ∈ x := List.mem_map_of_mem _ hq
  have huv : Real.log p.1 ≠ Real.log q.1 := fun hc =>
    hpq (Real.log_injOn_pos (Set.mem_Ioi.mpr (hmask p hp).1)
      (Set.mem_Ioi.mpr (hmask q hq).1) hc)
  have hne : Real.log p.1 ≠ listMean x ∨ Real.log q.1 ≠ listMean x := by
    by_contra hcon
    push_neg at hcon
    exact huv (hcon.1.trans hcon.2.symm)
  have hnn : ∀ b ∈ x.map (fun t => (t - listMean x) ^ 2), 0 ≤ b := by
    intro b hb
    obtain ⟨t, _, rfl⟩ := List.mem_map.mp hb
    positivity
  rcases hne with hne | hne
  · exact ne_of_gt (sum_pos_of_mem _ hnn _ (List.mem_map_of_mem _ hu)
      (lt_of_le_of_ne (sq_nonneg _)
        (Ne.symm (pow_ne_zero 2 (sub_ne_zero.mpr hne)))))
  · exact ne_of_gt (sum_pos_of_mem _ hnn _ (List.mem_map_of_mem _ hv)
      (lt_of_le_of_ne (sq_nonneg _)
        (Ne.symm (pow_ne_zero 2 (sub_ne_zero.mpr hne)))))

/-- Claim C8 witness: the spec's own concrete test —
`radius = [0.1, 0.2, 0.4, 0.8, 1.0]`, `density = 5 · radius^(−1.5)`,
`r_max = 1` — where `inner_slope` returns exactly `−1.5`. -/
theorem C8_witness :
    inner_slope [0.1, 0.2, 0.4, 0.8, 1.0]
      (([0.1, 0.2, 0.4, 0.8, 1.0] : List ℝ).map
        (fun r => 5 * r ^ (-1.5 : ℝ))) 1 = some (-1.5) := by
  have hzip := zip_self_map ([0.1, 0.2, 0.4, 0.8, 1.0] : List ℝ)
    (fun r => 5 * r ^ (-1.5 : ℝ))
  have hall : ∀ p ∈ ([0.1, 0.2, 0.4, 0.8, 1.0] : List ℝ).map
      (fun r => (r, 5 * r ^ (-1.5 : ℝ))), slopeMask 1 p = true := by
    intro p hp
    obtain ⟨r, hr, rfl⟩ := List.mem_map.mp hp
    simp only [slopeMask, decide_eq_true_eq]
    fin_cases hr <;>
      exact ⟨by norm_num, by norm_num, by positivity⟩
  have hfilter : ((([0.1, 0.2, 0.4, 0.8, 1.0] : List ℝ).zip
        (([0.1, 0.2, 0.4, 0.8, 1.0] : List ℝ).map
          (fun r => 5 * r ^ (-1.5 : ℝ)))).filter (slopeMask 1)) =
      ([0.1, 0.2, 0.4, 0.8, 1.0] : List ℝ).map
        (fun r => (r, 5 * r ^ (-1.5 : ℝ))) := by
    rw [hzip]
    exact List.filter_eq_self.mpr hall
  refine C8_power_law_slope _ _ _ 5 (-1.5) (by norm_num) ?_ ?_ ?_
  · intro p hp
    rw [hfilter] at hp
    obtain ⟨r, _, rfl⟩ := List.mem_map.mp hp
    rfl
  · rw [hfilter]
    simp
  · rw [hfilter]
    refine ⟨(0.1, 5 * (0.1 : ℝ) ^ (-1.5 : ℝ)),
      List.mem_map_of_mem _ (List.mem_cons_self _ _),
      (0.2, 5 * (0.2 : ℝ) ^ (-1.5 : ℝ)),
      List.mem_map_of_mem _ (List.mem_cons_of_mem _
        (List.mem_cons_self _ _)), by norm_num⟩

end GoP
